import Mathlib

/-!
Verification of the emergency-routing core of the `tph` repository
(`src/sentinel-backend/src/services/routingService.js` and the routing
controller in `src/sentinel-backend/src/controllers/reportController.js`).

The JavaScript source computes over IEEE doubles; this development models
numbers as exact reals (`ℝ`), which makes the trigonometric definitions
noncomputable in Lean.  Concrete evaluations in witnesses are carried out
by simp/norm_num at inputs where the trigonometry collapses to closed
forms.  JS `Map`s are modelled as association lists with
most-recent-first lookup, JS `Infinity` as `⊤` in `WithTop ℝ`, and the
unbounded `while` loops of A* as fuelled recursion with a distinguished
out-of-fuel outcome (so a "no path" result is reported only when the open
set genuinely emptied, exactly as in the source).
-/

/-- `toRadians(degrees)` from routingService.js. -/
noncomputable def toRadians (degrees : ℝ) : ℝ := degrees * Real.pi / 180

/-- `toDegrees(radians)` from routingService.js. -/
noncomputable def toDegrees (radians : ℝ) : ℝ := radians * 180 / Real.pi

/-- JavaScript `Math.atan2(y, x)` on real arguments (range `(-π, π]`,
`atan2 0 0 = 0`). -/
noncomputable def atan2 (y x : ℝ) : ℝ :=
  if 0 < x then Real.arctan (y / x)
  else if x < 0 ∧ 0 ≤ y then Real.arctan (y / x) + Real.pi
  else if x < 0 then Real.arctan (y / x) - Real.pi
  else if 0 < y then Real.pi / 2
  else if y < 0 then -(Real.pi / 2)
  else 0

/-- `haversineDistance(lat1, lng1, lat2, lng2)` from routingService.js:
great-circle distance in kilometres with Earth radius 6371 km. -/
noncomputable def haversineDistance (lat1 lng1 lat2 lng2 : ℝ) : ℝ :=
  let dLat := toRadians (lat2 - lat1)
  let dLng := toRadians (lng2 - lng1)
  let a := Real.sin (dLat / 2) * Real.sin (dLat / 2) +
      Real.cos (toRadians lat1) * Real.cos (toRadians lat2) *
      (Real.sin (dLng / 2) * Real.sin (dLng / 2))
  let c := 2 * atan2 (Real.sqrt a) (Real.sqrt (1 - a))
  6371 * c

/-- `calculateBearing(lat1, lng1, lat2, lng2)` from routingService.js. -/
noncomputable def calculateBearing (lat1 lng1 lat2 lng2 : ℝ) : ℝ :=
  let dLng := toRadians (lng2 - lng1)
  let lat1Rad := toRadians lat1
  let lat2Rad := toRadians lat2
  let y := Real.sin dLng * Real.cos lat2Rad
  let x := Real.cos lat1Rad * Real.sin lat2Rad -
      Real.sin lat1Rad * Real.cos lat2Rad * Real.cos dLng
  toDegrees (atan2 y x)

/-- First `while` loop of `normalizeAngle`: subtract 360 while the angle
exceeds 180. -/
noncomputable def normDown (x : ℝ) : ℝ :=
  if h : 180 < x then normDown (x - 360) else x
termination_by (⌈(x - 180) / 360⌉).toNat
decreasing_by
  have h1 : (0 : ℝ) < (x - 180) / 360 := by
    have : (0 : ℝ) < x - 180 := by linarith
    positivity
  have h2 : 1 ≤ ⌈(x - 180) / 360⌉ := Int.ceil_pos.mpr h1
  have h3 : ⌈(x - 360 - 180) / 360⌉ = ⌈(x - 180) / 360⌉ - 1 := by
    rw [show (x - 360 - 180) / 360 = (x - 180) / 360 - (1 : ℤ) by push_cast; ring,
      Int.ceil_sub_int]
  omega

/-- Second `while` loop of `normalizeAngle`: add 360 while the angle is
below -180. -/
noncomputable def normUp (x : ℝ) : ℝ :=
  if h : x < -180 then normUp (x + 360) else x
termination_by (⌈(-180 - x) / 360⌉).toNat
decreasing_by
  have h1 : (0 : ℝ) < (-180 - x) / 360 := by
    have : (0 : ℝ) < -180 - x := by linarith
    positivity
  have h2 : 1 ≤ ⌈(-180 - x) / 360⌉ := Int.ceil_pos.mpr h1
  have h3 : ⌈(-180 - (x + 360)) / 360⌉ = ⌈(-180 - x) / 360⌉ - 1 := by
    rw [show (-180 - (x + 360)) / 360 = (-180 - x) / 360 - (1 : ℤ) by push_cast; ring,
      Int.ceil_sub_int]
  omega

/-- `normalizeAngle(angle)` from routingService.js: the two sequential
`while` loops. -/
noncomputable def normalizeAngle (angle : ℝ) : ℝ := normUp (normDown angle)

/-- JavaScript `Math.round` (round half towards positive infinity). -/
noncomputable def jsRound (x : ℝ) : ℝ := (⌊x + 1 / 2⌋ : ℤ)

/-! ### Helper lemmas about the geodesy layer -/

theorem atan2_zero_one : atan2 0 1 = 0 := by
  unfold atan2
  rw [if_pos one_pos]
  simp

theorem atan2_nonneg {y x : ℝ} (hy : 0 ≤ y) : 0 ≤ atan2 y x := by
  unfold atan2
  split_ifs with h1 h2 h3 h4 h5
  · rw [← Real.arctan_zero]
    exact Real.arctan_strictMono.monotone (div_nonneg hy (le_of_lt h1))
  · have := Real.neg_pi_div_two_lt_arctan (y / x)
    have hp := Real.pi_pos
    linarith
  · exact absurd ⟨h3, hy⟩ h2
  · have := Real.pi_pos; linarith
  · linarith
  · exact le_refl 0

theorem haversine_same (lat lng : ℝ) : haversineDistance lat lng lat lng = 0 := by
  unfold haversineDistance toRadians
  simp [atan2_zero_one]

theorem haversine_symm (lat1 lng1 lat2 lng2 : ℝ) :
    haversineDistance lat1 lng1 lat2 lng2 = haversineDistance lat2 lng2 lat1 lng1 := by
  unfold haversineDistance
  have hlat : toRadians (lat1 - lat2) = -(toRadians (lat2 - lat1)) := by
    unfold toRadians; ring
  have hlng : toRadians (lng1 - lng2) = -(toRadians (lng2 - lng1)) := by
    unfold toRadians; ring
  rw [hlat, hlng]
  simp only [neg_div, Real.sin_neg]
  ring_nf

theorem haversine_nonneg (lat1 lng1 lat2 lng2 : ℝ) :
    0 ≤ haversineDistance lat1 lng1 lat2 lng2 := by
  unfold haversineDistance
  have h := atan2_nonneg (x := Real.sqrt (1 - (Real.sin (toRadians (lat2 - lat1) / 2) *
      Real.sin (toRadians (lat2 - lat1) / 2) +
      Real.cos (toRadians lat1) * Real.cos (toRadians lat2) *
      (Real.sin (toRadians (lng2 - lng1) / 2) * Real.sin (toRadians (lng2 - lng1) / 2)))))
      (Real.sqrt_nonneg (Real.sin (toRadians (lat2 - lat1) / 2) *
      Real.sin (toRadians (lat2 - lat1) / 2) +
      Real.cos (toRadians lat1) * Real.cos (toRadians lat2) *
      (Real.sin (toRadians (lng2 - lng1) / 2) * Real.sin (toRadians (lng2 - lng1) / 2))))
  nlinarith [h]

/-- At latitude 90° the exact-real haversine formula degenerates:
`cos (π/2) = 0`, so any two points on that parallel are at distance
exactly 0.  This is a boundary of the real-number idealization: IEEE
doubles have no argument whose cosine is exactly 0
(`Math.cos(toRadians(90)) ≈ 6.12e-17`), so the JavaScript source computes
a strictly positive (≈ 3.4e-17 km) distance at the same inputs. -/
theorem haversine_pole (lng1 lng2 : ℝ) : haversineDistance 90 lng1 90 lng2 = 0 := by
  have h90 : (90 : ℝ) * Real.pi / 180 = Real.pi / 2 := by ring
  unfold haversineDistance toRadians
  simp [h90, Real.cos_pi_div_two, atan2_zero_one]

theorem normDown_nonrec {x : ℝ} (h : ¬ 180 < x) : normDown x = x := by
  rw [normDown]; simp [h]

theorem normUp_nonrec {x : ℝ} (h : ¬ x < -180) : normUp x = x := by
  rw [normUp]; simp [h]

theorem normDown_le (x : ℝ) : normDown x ≤ 180 := by
  induction x using normDown.induct with
  | case1 x h ih => rw [normDown, dif_pos h]; exact ih
  | case2 x h => rw [normDown, dif_neg h]; linarith

theorem normUp_ge (x : ℝ) : -180 ≤ normUp x := by
  induction x using normUp.induct with
  | case1 x h ih => rw [normUp, dif_pos h]; exact ih
  | case2 x h => rw [normUp, dif_neg h]; linarith

theorem normUp_le {x : ℝ} (h : x ≤ 180) : normUp x ≤ 180 := by
  induction x using normUp.induct with
  | case1 x hx ih =>
      rw [normUp, dif_pos hx]
      exact ih (by linarith)
  | case2 x hx => rw [normUp, dif_neg hx]; exact h

theorem normDown_sub_int (x : ℝ) : ∃ k : ℤ, normDown x = x + 360 * k := by
  induction x using normDown.induct with
  | case1 x h ih =>
      obtain ⟨k, hk⟩ := ih
      exact ⟨k - 1, by rw [normDown, dif_pos h, hk]; push_cast; ring⟩
  | case2 x h => exact ⟨0, by rw [normDown, dif_neg h]; simp⟩

theorem normUp_sub_int (x : ℝ) : ∃ k : ℤ, normUp x = x + 360 * k := by
  induction x using normUp.induct with
  | case1 x h ih =>
      obtain ⟨k, hk⟩ := ih
      exact ⟨k + 1, by rw [normUp, dif_pos h, hk]; push_cast; ring⟩
  | case2 x h => exact ⟨0, by rw [normUp, dif_neg h]; simp⟩

theorem normalizeAngle_mem (x : ℝ) :
    -180 ≤ normalizeAngle x ∧ normalizeAngle x ≤ 180 := by
  unfold normalizeAngle
  exact ⟨normUp_ge _, normUp_le (normDown_le x)⟩

theorem normalizeAngle_sub_int (x : ℝ) :
    ∃ k : ℤ, normalizeAngle x = x + 360 * k := by
  unfold normalizeAngle
  obtain ⟨k1, hk1⟩ := normDown_sub_int x
  obtain ⟨k2, hk2⟩ := normUp_sub_int (normDown x)
  exact ⟨k1 + k2, by rw [hk2, hk1]; push_cast; ring⟩

theorem normalizeAngle_neg180 : normalizeAngle (-180) = -180 := by
  unfold normalizeAngle
  rw [normDown_nonrec (by norm_num), normUp_nonrec (by norm_num)]

theorem normalizeAngle_zero : normalizeAngle 0 = 0 := by
  unfold normalizeAngle
  rw [normDown_nonrec (by norm_num), normUp_nonrec (by norm_num)]

/-! ### Graph data model

`GraphNode.connections` in the source holds direct references to neighbour
node objects (an object graph with cycles); here a connection stores the
neighbour's `id` and the containing graph is passed for lookup, which is
equivalent because node ids are unique within a graph. -/

/-- A connection (directed edge) stored on its origin node:
`{node, distance, trafficLevel, accidentRisk}` from routingService.js, with
the neighbour reference replaced by its id. -/
structure Connection where
  target : String
  distance : ℝ
  trafficLevel : ℝ
  accidentRisk : ℝ

/-- The `GraphNode` class of routingService.js (the `type` field, always
`"intersection"`, is omitted as it is never read). -/
structure GraphNode where
  id : String
  lat : ℝ
  lng : ℝ
  connections : List Connection

instance : Inhabited GraphNode := ⟨⟨"", 0, 0, []⟩⟩

/-- Bounding box produced by `calculateBounds`. -/
structure Bounds where
  minLat : ℝ
  maxLat : ℝ
  minLng : ℝ
  maxLng : ℝ

/-- `calculateBounds(start, end, buffer)` from routingService.js. -/
noncomputable def calculateBounds (slat slng elat elng buffer : ℝ) : Bounds :=
  ⟨min slat elat - buffer, max slat elat + buffer,
   min slng elng - buffer, max slng elng + buffer⟩

/-- The values visited by `for (v = lo; v <= hi; v += step)` for a positive
step, in exact real arithmetic: `lo + i * step` for
`i = 0, …, ⌊(hi - lo) / step⌋`. -/
noncomputable def gridPoints (lo hi step : ℝ) : List ℝ :=
  (List.range (⌊(hi - lo) / step⌋ + 1).toNat).map (fun i => lo + i * step)

/-- `findNeighbors(node, allNodes, gridSize)` from routingService.js: the
loop over `allNodes` that skips the node itself (`continue` on equal ids)
and keeps every other node within `1.5 * gridSize` haversine distance. -/
noncomputable def findNeighbors : GraphNode → List GraphNode → ℝ → List GraphNode
  | _, [], _ => []
  | node, other :: rest, gridSize =>
    if other.id ≠ node.id ∧
        haversineDistance node.lat node.lng other.lat other.lng ≤ gridSize * 1.5
    then other :: findNeighbors node rest gridSize
    else findNeighbors node rest gridSize

/-- The `nodeId++` counter of `generateGridGraph`: turn the grid
coordinates into connection-less nodes with sequential ids `node_0`,
`node_1`, …. -/
def numberNodes : ℕ → List (ℝ × ℝ) → List GraphNode
  | _, [] => []
  | i, c :: cs => ⟨"node_" ++ toString i, c.1, c.2, []⟩ :: numberNodes (i + 1) cs

/-- `generateGridGraph(bounds, gridSize)` from routingService.js.  The
`traffic` parameter models the `Math.random() * 0.5` draw for each edge's
`trafficLevel` (an arbitrary value per ordered node pair); the base
accident risk is the constant `0.1`. -/
noncomputable def generateGridGraph (bounds : Bounds) (gridSize : ℝ)
    (traffic : GraphNode → GraphNode → ℝ) : List GraphNode :=
  let coords := (gridPoints bounds.minLat bounds.maxLat gridSize).bind
    (fun lat => (gridPoints bounds.minLng bounds.maxLng gridSize).map (fun lng => (lat, lng)))
  let bare := numberNodes 0 coords
  bare.map (fun node =>
    { node with connections := (findNeighbors node bare gridSize).map (fun neighbor =>
        ⟨neighbor.id,
         haversineDistance node.lat node.lng neighbor.lat neighbor.lng,
         traffic node neighbor,
         1 / 10⟩) })

/-! ### Risk enrichment -/

/-- A row of `AccidentHistory` as read by `enrichWithAccidentData`:
coordinates and an optional severity. -/
structure HistoricalIncident where
  lat : ℝ
  lng : ℝ
  severity : Option ℝ

/-- The `accident.severity || 5` expression: a missing or zero (falsy)
severity contributes the default 5. -/
noncomputable def effSeverity (a : HistoricalIncident) : ℝ :=
  match a.severity with
  | none => 5
  | some s => if s = 0 then 5 else s

/-- Models `turf.distance(a, b, { units: 'meters' })`: spherical
(haversine) distance in metres. -/
noncomputable def turfDistanceMeters (lat1 lng1 lat2 lng2 : ℝ) : ℝ :=
  1000 * haversineDistance lat1 lng1 lat2 lng2

/-- The incidents counted by `enrichWithAccidentData` for an edge midpoint:
those strictly within 200 metres. -/
noncomputable def nearIncidents (midLat midLng : ℝ)
    (incidents : List HistoricalIncident) : List HistoricalIncident :=
  incidents.filter (fun a => decide (turfDistanceMeters midLat midLng a.lat a.lng < 200))

/-- The accident risk `enrichWithAccidentData` leaves on an edge with prior
risk `prior` and midpoint `(midLat, midLng)`: unchanged when no incident is
within 200 m, else `min 1 ((count * (totalSeverity / count)) / 50)`. -/
noncomputable def enrichedRisk (prior midLat midLng : ℝ)
    (incidents : List HistoricalIncident) : ℝ :=
  let near := nearIncidents midLat midLng incidents
  if near.length = 0 then prior
  else min 1 ((near.length * ((near.map effSeverity).sum / near.length)) / 50)

/-- Node lookup by id (the JS object reference held in a connection). -/
def lookupNode (graph : List GraphNode) (id : String) : Option GraphNode :=
  graph.find? (fun n => n.id = id)

/-- The per-edge pass of `enrichWithAccidentData(graph)` (lines 236-267):
overwrite each connection's `accidentRisk` from the incidents near the
edge's midpoint. -/
noncomputable def enrichWithAccidentData (graph : List GraphNode)
    (incidents : List HistoricalIncident) : List GraphNode :=
  graph.map (fun node =>
    { node with connections := node.connections.map (fun conn =>
        match lookupNode graph conn.target with
        | none => conn
        | some nb =>
            let newRisk := enrichedRisk conn.accidentRisk
              ((node.lat + nb.lat) / 2) ((node.lng + nb.lng) / 2) incidents
            { conn with accidentRisk := newRisk }) })

/-! ### Edge weight and heuristic -/

/-- The routing preferences destructured in `aStarPathfinding` /
`calculateEdgeWeight`. -/
structure RoutePreferences where
  prioritizeSafety : Bool
  avoidTraffic : Bool
  emergencyType : String

/-- `calculateEdgeWeight(connection, options)` from routingService.js. -/
noncomputable def calculateEdgeWeight (connection : Connection)
    (options : RoutePreferences) : ℝ :=
  let weight := connection.distance
  let weight := if options.avoidTraffic
    then weight * (1 + connection.trafficLevel * 2) else weight
  let weight := if options.prioritizeSafety
    then weight * (1 + connection.accidentRisk * 3) else weight
  let weight := if options.emergencyType = "fire"
    then weight * (1 + connection.accidentRisk) else weight
  weight

/-- `heuristic(nodeA, nodeB)` from routingService.js: great-circle distance
between the two nodes. -/
noncomputable def heuristic (nodeA nodeB : GraphNode) : ℝ :=
  haversineDistance nodeA.lat nodeA.lng nodeB.lat nodeB.lng

/-! ### A* pathfinding

JS `Map`s become most-recent-first association lists, the `Set` a list of
ids, and JS `Infinity` the `⊤` of `WithTop ℝ` (matching
`gScore.get(id) || Infinity`).  The priority queue of the source pushes
and re-sorts with a stable sort, which on an already-sorted list is
insertion after all entries of equal priority; `pqInsert` does exactly
that.  The unbounded `while` loop becomes fuelled recursion whose
out-of-fuel outcome is distinct from the "open set emptied" outcome. -/

/-- `Map.prototype.get` on an association list (most recent binding
first). -/
def mget {α : Type} (m : List (String × α)) (k : String) : Option α :=
  (m.find? (fun p => p.1 = k)).map (fun p => p.2)

/-- `Map.prototype.set` on an association list. -/
def mset {α : Type} (m : List (String × α)) (k : String) (v : α) :
    List (String × α) := (k, v) :: m

/-- `gScore.get(id) || Infinity` / `fScore.get(id) || Infinity`. -/
def getScore (m : List (String × WithTop ℝ)) (k : String) : WithTop ℝ :=
  (mget m k).getD ⊤

/-- Stable insertion into the priority queue: a new entry goes after all
entries of strictly smaller or equal priority (`push` + stable sort). -/
noncomputable def pqInsert (q : List (GraphNode × WithTop ℝ))
    (x : GraphNode × WithTop ℝ) : List (GraphNode × WithTop ℝ) :=
  match q with
  | [] => [x]
  | y :: ys => if x.2 < y.2 then x :: y :: ys else y :: pqInsert ys x

/-- A found path: the `{ nodes, connections }` object returned by
`reconstructPath`. -/
structure Route where
  nodes : List GraphNode
  connections : List Connection

/-- The `while (cameFrom.has(current.id))` loop of `reconstructPath`.
The fuel `cameFrom.length + 1` cannot be exhausted on the acyclic
predecessor maps A* builds (each entry is consulted at most once). -/
def reconstructPathAux : ℕ → List (String × (GraphNode × Connection)) →
    GraphNode → List GraphNode → List Connection → Route
  | 0, _, cur, ns, cs => ⟨cur :: ns, cs⟩
  | fuel + 1, came, cur, ns, cs =>
    match mget came cur.id with
    | none => ⟨cur :: ns, cs⟩
    | some pc => reconstructPathAux fuel came pc.1 (cur :: ns) (pc.2 :: cs)

/-- `reconstructPath(cameFrom, current)` from routingService.js. -/
def reconstructPath (came : List (String × (GraphNode × Connection)))
    (current : GraphNode) : Route :=
  reconstructPathAux (came.length + 1) came current [] []

/-- Search state of one `aStarPathfinding` invocation. -/
structure AStarState where
  openSet : List (GraphNode × WithTop ℝ)
  closedSet : List String
  cameFrom : List (String × (GraphNode × Connection))
  gScore : List (String × WithTop ℝ)
  fScore : List (String × WithTop ℝ)

/-- Outcome of the A* main loop: a path, a genuinely emptied open set, or
exhausted fuel (the JS loop is unbounded; `fuelOut` marks executions the
model did not run to completion). -/
inductive AStarResult where
  | found (route : Route)
  | noPath
  | fuelOut

/-- The body of the `for (const connection of current.connections)` loop
in `aStarPathfinding`. -/
noncomputable def processConnection (graph : List GraphNode)
    (endNode : GraphNode) (options : RoutePreferences) (current : GraphNode)
    (st : AStarState) (conn : Connection) : AStarState :=
  match lookupNode graph conn.target with
  | none => st
  | some neighbor =>
    if st.closedSet.contains neighbor.id then st
    else
      let edgeWeight := calculateEdgeWeight conn options
      let tentative := getScore st.gScore current.id + (edgeWeight : WithTop ℝ)
      if tentative < getScore st.gScore neighbor.id then
        let f := tentative + ((heuristic neighbor endNode : ℝ) : WithTop ℝ)
        { openSet := pqInsert st.openSet (neighbor, f)
          closedSet := st.closedSet
          cameFrom := mset st.cameFrom neighbor.id (current, conn)
          gScore := mset st.gScore neighbor.id tentative
          fScore := mset st.fScore neighbor.id f }
      else st

/-- The `while (!openSet.isEmpty())` loop of `aStarPathfinding`. -/
noncomputable def aStarLoop (graph : List GraphNode) (endNode : GraphNode)
    (options : RoutePreferences) : ℕ → AStarState → AStarResult
  | 0, _ => .fuelOut
  | fuel + 1, st =>
    match st.openSet with
    | [] => .noPath
    | (current, _) :: rest =>
      if current.id = endNode.id then
        .found (reconstructPath st.cameFrom current)
      else
        let st1 : AStarState :=
          { st with openSet := rest, closedSet := current.id :: st.closedSet }
        aStarLoop graph endNode options fuel
          (current.connections.foldl (processConnection graph endNode options current) st1)

/-- `aStarPathfinding(startNode, endNode, options)` from
routingService.js. -/
noncomputable def aStarPathfinding (graph : List GraphNode)
    (startNode endNode : GraphNode) (options : RoutePreferences)
    (fuel : ℕ) : AStarResult :=
  let h0 : WithTop ℝ := ((heuristic startNode endNode : ℝ) : WithTop ℝ)
  aStarLoop graph endNode options fuel
    { openSet := [(startNode, h0)]
      closedSet := []
      cameFrom := []
      gScore := [(startNode.id, ((0 : ℝ) : WithTop ℝ))]
      fScore := [(startNode.id, h0)] }

/-! ### Instructions, metadata, result -/

/-- One turn-by-turn instruction.  The human-readable `text` field of the
source (a formatted string rendering of floating-point coordinates) is
presentation-only and is not modelled. -/
structure Instruction where
  step : ℕ
  action : String
  distance : ℝ
  coordinates : Option (ℝ × ℝ)

instance : Inhabited Instruction := ⟨⟨0, "", 0, none⟩⟩

/-- The turn angle computed for intermediate node `i` in
`generateInstructions`:
`normalizeAngle(bearing(curr→next) - bearing(prev→curr))`. -/
noncomputable def turnAngleAt (nodes : List GraphNode) (i : ℕ) : ℝ :=
  let prev := nodes.getD (i - 1) default
  let curr := nodes.getD i default
  let next := nodes.getD (i + 1) default
  normalizeAngle (calculateBearing curr.lat curr.lng next.lat next.lng -
    calculateBearing prev.lat prev.lng curr.lat curr.lng)

/-- The intermediate instruction pushed for node `i` in
`generateInstructions` (the if/else-if chain on the turn angle). -/
noncomputable def intermediateInstruction (nodes : List GraphNode)
    (connections : List Connection) (i : ℕ) : Instruction :=
  let curr := nodes.getD i default
  let t := turnAngleAt nodes i
  let action :=
    if 30 < t ∧ t < 150 then "turn_right"
    else if t < -30 ∧ -150 < t then "turn_left"
    else if 150 ≤ |t| then "u_turn"
    else "straight"
  ⟨i + 1, action, ((connections.get? i).map (fun c => c.distance)).getD 0,
    some (curr.lat, curr.lng)⟩

/-- `generateInstructions(route)` from routingService.js. -/
noncomputable def generateInstructions (route : Route) : List Instruction :=
  if route.nodes.length < 2 then []
  else
    let startIns : Instruction :=
      ⟨1, "start", ((route.connections.get? 0).map (fun c => c.distance)).getD 0, none⟩
    let mids := (List.range' 1 (route.nodes.length - 2)).map
      (intermediateInstruction route.nodes route.connections)
    let arriveIns : Instruction := ⟨mids.length + 2, "arrive", 0, none⟩
    startIns :: (mids ++ [arriveIns])

/-- The derived boolean quality flags of the route metadata. -/
structure RouteCriteria where
  shortestPath : Prop
  lowTraffic : Prop
  safePassage : Prop
  minimalTime : Prop

/-- The metadata object of `calculateRouteMetadata`. -/
structure RouteMetadata where
  totalDistanceKm : ℝ
  estimatedTimeMin : ℝ
  waypoints : ℕ
  avgTrafficLevel : ℝ
  maxAccidentRisk : ℝ
  safetyScore : ℝ
  criteria : RouteCriteria

/-- `calculateRouteMetadata(route)` from routingService.js. -/
noncomputable def calculateRouteMetadata (route : Route) : RouteMetadata :=
  let totalDistance := (route.connections.map (fun c => c.distance)).sum
  let totalTime := (route.connections.map
    (fun c => c.distance / (30 * (1 - c.trafficLevel * (1 / 2))) * 60)).sum
  let sumTraffic := (route.connections.map (fun c => c.trafficLevel)).sum
  let maxRisk := route.connections.foldl (fun m c => max m c.accidentRisk) 0
  let avgTraffic :=
    if 0 < route.connections.length then sumTraffic / route.connections.length else 0
  let safetyScore := jsRound ((1 - maxRisk) * 100)
  { totalDistanceKm := jsRound (totalDistance * 100) / 100
    estimatedTimeMin := jsRound totalTime
    waypoints := route.nodes.length
    avgTrafficLevel := jsRound (avgTraffic * 100) / 100
    maxAccidentRisk := jsRound (maxRisk * 100) / 100
    safetyScore := safetyScore
    criteria := ⟨True, avgTraffic < 3 / 10, 70 < safetyScore, totalTime < 30⟩ }

/-- The geometry part of `convertToGeoJSON` (a `LineString` of
`[lng, lat]` pairs; constant name/description properties omitted). -/
structure RouteGeoJSON where
  coordinates : List (ℝ × ℝ)

/-- `convertToGeoJSON(route)` from routingService.js. -/
noncomputable def convertToGeoJSON (route : Route) : RouteGeoJSON :=
  ⟨route.nodes.map (fun n => (n.lng, n.lat))⟩

/-- The value returned by `calculateOptimalRoute`: `{success: true, ...}`
or `{success: false, error}`. -/
inductive RouteResult where
  | success (route : RouteGeoJSON) (instructions : List Instruction)
      (metadata : RouteMetadata)
  | failure (error : String)

/-- Steps 3-5 of `calculateOptimalRoute` (run A*, then instructions and
metadata); the thrown `'No valid route found'` is caught by the service's
`try/catch` and surfaces as `{success: false, error}`.  `none` marks a
run whose fuel was exhausted (no JS counterpart). -/
noncomputable def computeRouteFromGraph (graph : List GraphNode)
    (startNode endNode : GraphNode) (options : RoutePreferences)
    (fuel : ℕ) : Option RouteResult :=
  match aStarPathfinding graph startNode endNode options fuel with
  | .fuelOut => none
  | .noPath => some (.failure "No valid route found")
  | .found route => some (.success (convertToGeoJSON route)
      (generateInstructions route) (calculateRouteMetadata route))

/-- `findNearestNode(graph, point)` from routingService.js (`minDist`
starts at `Infinity`, so the first node is always adopted). -/
noncomputable def findNearestNode (graph : List GraphNode) (lat lng : ℝ) :
    Option GraphNode :=
  (graph.foldl (fun acc node =>
    let dist := haversineDistance lat lng node.lat node.lng
    match acc with
    | none => some (node, dist)
    | some best => if dist < best.2 then some (node, dist) else some best)
    none).map (fun p => p.1)

/-- Steps 2-5 of `calculateOptimalRoute` on an already-built graph; the
thrown `'Could not find valid route endpoints'` is caught and surfaces as
`{success: false, error}`. -/
noncomputable def calculateOptimalRouteOnGraph (graph : List GraphNode)
    (slat slng elat elng : ℝ) (options : RoutePreferences) (fuel : ℕ) :
    Option RouteResult :=
  match findNearestNode graph slat slng, findNearestNode graph elat elng with
  | some startNode, some endNode =>
      computeRouteFromGraph graph startNode endNode options fuel
  | _, _ => some (.failure "Could not find valid route endpoints")

/-- `calculateOptimalRoute(start, end, preferences)` end to end: build the
grid graph over the buffered bounds (buffer 0.02°, grid step 0.005°),
enrich it with accident data, and route on it.  The graph cache is a
latency optimisation (a cached graph is one this function previously
returned) and is not modelled. -/
noncomputable def calculateOptimalRoute (slat slng elat elng : ℝ)
    (options : RoutePreferences) (traffic : GraphNode → GraphNode → ℝ)
    (incidents : List HistoricalIncident) (fuel : ℕ) : Option RouteResult :=
  let bounds := calculateBounds slat slng elat elng (2 / 100)
  let graph := enrichWithAccidentData
    (generateGridGraph bounds (5 / 1000) traffic) incidents
  calculateOptimalRouteOnGraph graph slat slng elat elng options fuel

/-! ### Claim theorems -/

/-- C9: the haversine distance function is symmetric —
`distanceKm(a,b) = distanceKm(b,a)` for all coordinate pairs — and
returns 0 when both arguments are the same coordinate. -/
theorem haversineDistance_symm_and_diag_zero :
    (∀ lat1 lng1 lat2 lng2 : ℝ,
      haversineDistance lat1 lng1 lat2 lng2 = haversineDistance lat2 lng2 lat1 lng1) ∧
    (∀ lat lng : ℝ, haversineDistance lat lng lat lng = 0) :=
  ⟨haversine_symm, haversine_same⟩

/-- C8 counterexample: at the finite input -180 the normalization
function returns -180 itself, which lies outside the claimed half-open
interval (-180, 180]. -/
theorem normalizeAngle_neg180_outside_claimed_range :
    normalizeAngle (-180) = -180 ∧ ¬ (-180 < normalizeAngle (-180)) := by
  refine ⟨normalizeAngle_neg180, ?_⟩
  rw [normalizeAngle_neg180]
  exact lt_irrefl _

/-- C8 (amended): for every input angle the normalization function
returns a value in the closed interval [-180, 180] that differs from the
input by an integer multiple of 360. -/
theorem normalizeAngle_range_and_period (x : ℝ) :
    -180 ≤ normalizeAngle x ∧ normalizeAngle x ≤ 180 ∧
    ∃ k : ℤ, normalizeAngle x = x + 360 * k :=
  ⟨(normalizeAngle_mem x).1, (normalizeAngle_mem x).2, normalizeAngle_sub_int x⟩

theorem edgeWeight_eq (connection : Connection) (options : RoutePreferences) :
    calculateEdgeWeight connection options =
      connection.distance *
        (if options.avoidTraffic then 1 + connection.trafficLevel * 2 else 1) *
        (if options.prioritizeSafety then 1 + connection.accidentRisk * 3 else 1) *
        (if options.emergencyType = "fire" then 1 + connection.accidentRisk else 1) := by
  unfold calculateEdgeWeight
  split_ifs <;> ring

/-- C4: for every edge and preference setting the edge cost equals the
edge distance multiplied by `(1 + congestion·2)` when `avoidTraffic` is
set, then by `(1 + accidentRisk·3)` when `prioritizeSafety` is set, then
by `(1 + accidentRisk)` when the emergency category is `"fire"`, composed
multiplicatively in exactly this order. -/
theorem calculateEdgeWeight_product_form (connection : Connection)
    (options : RoutePreferences) :
    calculateEdgeWeight connection options =
      connection.distance *
        (if options.avoidTraffic then 1 + connection.trafficLevel * 2 else 1) *
        (if options.prioritizeSafety then 1 + connection.accidentRisk * 3 else 1) *
        (if options.emergencyType = "fire" then 1 + connection.accidentRisk else 1) :=
  edgeWeight_eq connection options

/-- C2: for every edge with nonnegative distance whose congestion level
and accident risk lie in [0, 1], and every preference setting, the
composed edge weight is at least the edge's raw distance (all multipliers
are ≥ 1). -/
theorem calculateEdgeWeight_ge_distance (connection : Connection)
    (options : RoutePreferences)
    (hd : 0 ≤ connection.distance)
    (ht0 : 0 ≤ connection.trafficLevel) (ht1 : connection.trafficLevel ≤ 1)
    (hr0 : 0 ≤ connection.accidentRisk) (hr1 : connection.accidentRisk ≤ 1) :
    connection.distance ≤ calculateEdgeWeight connection options := by
  rw [edgeWeight_eq]
  have h1 : (1 : ℝ) ≤
      (if options.avoidTraffic then 1 + connection.trafficLevel * 2 else 1) := by
    split_ifs <;> nlinarith
  have h2 : (1 : ℝ) ≤
      (if options.prioritizeSafety then 1 + connection.accidentRisk * 3 else 1) := by
    split_ifs <;> nlinarith
  have h3 : (1 : ℝ) ≤
      (if options.emergencyType = "fire" then 1 + connection.accidentRisk else 1) := by
    split_ifs <;> nlinarith
  calc connection.distance
      ≤ connection.distance *
        (if options.avoidTraffic then 1 + connection.trafficLevel * 2 else 1) :=
        le_mul_of_one_le_right hd h1
    _ ≤ connection.distance *
        (if options.avoidTraffic then 1 + connection.trafficLevel * 2 else 1) *
        (if options.prioritizeSafety then 1 + connection.accidentRisk * 3 else 1) :=
        le_mul_of_one_le_right (mul_nonneg hd (by linarith)) h2
    _ ≤ connection.distance *
        (if options.avoidTraffic then 1 + connection.trafficLevel * 2 else 1) *
        (if options.prioritizeSafety then 1 + connection.accidentRisk * 3 else 1) *
        (if options.emergencyType = "fire" then 1 + connection.accidentRisk else 1) :=
        le_mul_of_one_le_right
          (mul_nonneg (mul_nonneg hd (by linarith)) (by linarith)) h3

/-- Witness for C2 at a concrete edge (distance 1, congestion 0.5, risk
0.5) with every multiplier active. -/
theorem calculateEdgeWeight_ge_distance_witness :
    (1 : ℝ) ≤ calculateEdgeWeight ⟨"node_1", 1, 1 / 2, 1 / 2⟩ ⟨true, true, "fire"⟩ :=
  calculateEdgeWeight_ge_distance ⟨"node_1", 1, 1 / 2, 1 / 2⟩ ⟨true, true, "fire"⟩
    (by norm_num) (by norm_num) (by norm_num) (by norm_num) (by norm_num)

theorem turfDistanceMeters_same (lat lng : ℝ) : turfDistanceMeters lat lng lat lng = 0 := by
  unfold turfDistanceMeters
  rw [haversine_same]
  norm_num

theorem nearIncidents_cons (midLat midLng : ℝ) (a : HistoricalIncident)
    (incidents : List HistoricalIncident) :
    nearIncidents midLat midLng (a :: incidents) =
      if turfDistanceMeters midLat midLng a.lat a.lng < 200
      then a :: nearIncidents midLat midLng incidents
      else nearIncidents midLat midLng incidents := by
  unfold nearIncidents
  rw [List.filter_cons]
  by_cases h : turfDistanceMeters midLat midLng a.lat a.lng < 200 <;> simp [h]

theorem enrichedRisk_of_nonempty (prior midLat midLng : ℝ)
    (incidents : List HistoricalIncident)
    (h : (nearIncidents midLat midLng incidents).length ≠ 0) :
    enrichedRisk prior midLat midLng incidents =
      min 1 (((nearIncidents midLat midLng incidents).map effSeverity).sum / 50) := by
  unfold enrichedRisk
  rw [if_neg h]
  have hn : ((nearIncidents midLat midLng incidents).length : ℝ) ≠ 0 := by
    exact_mod_cast h
  rw [mul_comm ((nearIncidents midLat midLng incidents).length : ℝ), div_mul_cancel₀ _ hn]

/-- C3 counterexample: an edge with no nearby incident keeps the 0.1
baseline risk, but adding a single incident of severity 1 at the edge
midpoint drops the risk to `min 1 (1·1/50) = 0.02 < 0.1`. -/
theorem enrichedRisk_add_incident_decreases :
    enrichedRisk (1 / 10) 0 0 [] = 1 / 10 ∧
    enrichedRisk (1 / 10) 0 0 [⟨0, 0, some 1⟩] = 1 / 50 ∧
    enrichedRisk (1 / 10) 0 0 [⟨0, 0, some 1⟩] < enrichedRisk (1 / 10) 0 0 [] := by
  have hnear : nearIncidents 0 0 [(⟨0, 0, some 1⟩ : HistoricalIncident)] = [⟨0, 0, some 1⟩] := by
    rw [show ([(⟨0, 0, some 1⟩ : HistoricalIncident)]) =
      (⟨0, 0, some 1⟩ : HistoricalIncident) :: [] from rfl, nearIncidents_cons]
    rw [if_pos (by rw [turfDistanceMeters_same]; norm_num)]
    rfl
  have hempty : enrichedRisk (1 / 10) 0 0 [] = 1 / 10 := by
    unfold enrichedRisk nearIncidents
    simp
  have hone : enrichedRisk (1 / 10) 0 0 [⟨0, 0, some 1⟩] = 1 / 50 := by
    rw [enrichedRisk_of_nonempty _ _ _ _ (by rw [hnear]; simp), hnear]
    unfold effSeverity
    norm_num
  exact ⟨hempty, hone, by rw [hempty, hone]; norm_num⟩

/-- C3 (amended): the enrichment risk is monotone once the edge already
has at least one nearby incident — adding a further nearby (or far)
incident of nonnegative effective severity, or raising the (positive)
severity of an existing nearby incident, never decreases the risk.  (The
transition from zero to one nearby incident can decrease it below the
0.1 baseline, as the counterexample shows.) -/
theorem enrichedRisk_monotone :
    (∀ (prior midLat midLng : ℝ) (incidents : List HistoricalIncident)
      (a : HistoricalIncident),
      (nearIncidents midLat midLng incidents).length ≠ 0 →
      0 ≤ effSeverity a →
      enrichedRisk prior midLat midLng incidents ≤
        enrichedRisk prior midLat midLng (a :: incidents)) ∧
    (∀ (prior midLat midLng lat lng : ℝ) (incidents : List HistoricalIncident)
      (s s' : ℝ), 0 < s → s ≤ s' →
      enrichedRisk prior midLat midLng (⟨lat, lng, some s⟩ :: incidents) ≤
        enrichedRisk prior midLat midLng (⟨lat, lng, some s'⟩ :: incidents)) := by
  constructor
  · intro prior midLat midLng incidents a hne ha
    by_cases hnear : turfDistanceMeters midLat midLng a.lat a.lng < 200
    · have hcons : nearIncidents midLat midLng (a :: incidents) =
          a :: nearIncidents midLat midLng incidents := by
        rw [nearIncidents_cons, if_pos hnear]
      have hne' : (nearIncidents midLat midLng (a :: incidents)).length ≠ 0 := by
        rw [hcons]; simp
      rw [enrichedRisk_of_nonempty _ _ _ _ hne, enrichedRisk_of_nonempty _ _ _ _ hne', hcons]
      refine min_le_min le_rfl (div_le_div_of_nonneg_right ?_ (by norm_num))
      simp only [List.map_cons, List.sum_cons]
      linarith
    · rw [show enrichedRisk prior midLat midLng (a :: incidents) =
          enrichedRisk prior midLat midLng incidents from ?_]
      · unfold enrichedRisk
        rw [nearIncidents_cons, if_neg hnear]
  · intro prior midLat midLng lat lng incidents s s' hs hss
    have hs' : 0 < s' := lt_of_lt_of_le hs hss
    have heff : effSeverity ⟨lat, lng, some s⟩ = s := by
      show (if s = 0 then 5 else s) = s
      rw [if_neg (ne_of_gt hs)]
    have heff' : effSeverity ⟨lat, lng, some s'⟩ = s' := by
      show (if s' = 0 then 5 else s') = s'
      rw [if_neg (ne_of_gt hs')]
    by_cases hnear : turfDistanceMeters midLat midLng lat lng < 200
    · have hcons : ∀ sv : ℝ, nearIncidents midLat midLng
          ((⟨lat, lng, some sv⟩ : HistoricalIncident) :: incidents) =
          ⟨lat, lng, some sv⟩ :: nearIncidents midLat midLng incidents := by
        intro sv
        rw [nearIncidents_cons, if_pos hnear]
      have hne1 : (nearIncidents midLat midLng
          ((⟨lat, lng, some s⟩ : HistoricalIncident) :: incidents)).length ≠ 0 := by
        rw [hcons]; simp
      have hne2 : (nearIncidents midLat midLng
          ((⟨lat, lng, some s'⟩ : HistoricalIncident) :: incidents)).length ≠ 0 := by
        rw [hcons]; simp
      rw [enrichedRisk_of_nonempty _ _ _ _ hne1, enrichedRisk_of_nonempty _ _ _ _ hne2,
        hcons, hcons]
      refine min_le_min le_rfl (div_le_div_of_nonneg_right ?_ (by norm_num))
      simp only [List.map_cons, List.sum_cons, heff, heff']
      linarith
    · have heq : ∀ sv : ℝ, enrichedRisk prior midLat midLng
          ((⟨lat, lng, some sv⟩ : HistoricalIncident) :: incidents) =
          enrichedRisk prior midLat midLng incidents := by
        intro sv
        unfold enrichedRisk
        rw [nearIncidents_cons, if_neg hnear]
      rw [heq, heq]

/-- Witness for C3 (amended), both parts, at concrete incidents sitting
on the edge midpoint: adding a severity-3 incident next to an existing
severity-2 one, and raising a severity from 2 to 3. -/
theorem enrichedRisk_monotone_witness :
    (enrichedRisk (1 / 10) 0 0 [⟨0, 0, some 2⟩] ≤
      enrichedRisk (1 / 10) 0 0 [⟨0, 0, some 3⟩, ⟨0, 0, some 2⟩]) ∧
    (enrichedRisk (1 / 10) 0 0 [⟨0, 0, some 2⟩] ≤
      enrichedRisk (1 / 10) 0 0 [⟨0, 0, some 3⟩]) := by
  have hne : (nearIncidents 0 0 [(⟨0, 0, some 2⟩ : HistoricalIncident)]).length ≠ 0 := by
    rw [show ([(⟨0, 0, some 2⟩ : HistoricalIncident)]) =
      (⟨0, 0, some 2⟩ : HistoricalIncident) :: [] from rfl, nearIncidents_cons]
    rw [if_pos (by rw [turfDistanceMeters_same]; norm_num)]
    simp
  constructor
  · exact enrichedRisk_monotone.1 (1 / 10) 0 0 [⟨0, 0, some 2⟩] ⟨0, 0, some 3⟩ hne
      (by unfold effSeverity; norm_num)
  · exact enrichedRisk_monotone.2 (1 / 10) 0 0 0 0 [] 2 3 (by norm_num) (by norm_num)

/-! ### Route controller location validation (reportController.js)

The fields of `userLocation` are modelled as rationals (JS numbers with
`NaN` excluded; the express-validator `isFloat` checks have already
rejected non-numeric payloads when the truthiness check runs). -/

/-- The `userLocation` object of a calculate-route request body. -/
structure UserLocation where
  lat : ℚ
  lng : ℚ

/-- `validateCalculateRoute()`: the express-validator error messages for
the `userLocation` field group (`isObject`, `isFloat({min: -90, max: 90})`,
`isFloat({min: -180, max: 180})`). -/
def validateCalculateRoute (userLocation : Option UserLocation) : List String :=
  match userLocation with
  | none => ["userLocation must be an object", "Invalid latitude", "Invalid longitude"]
  | some l =>
      (if l.lat < -90 ∨ 90 < l.lat then ["Invalid latitude"] else []) ++
      (if l.lng < -180 ∨ 180 < l.lng then ["Invalid longitude"] else [])

/-- Outcome of the location-handling prefix of
`RoutingController.calculateRoute`: a 400 from the validator, the 400
from the truthiness check (`!userLocation || !userLocation.lat ||
!userLocation.lng`), or control proceeding to graph construction and
pathfinding. -/
inductive RouteRequestOutcome where
  | badRequest (errors : List String)
  | invalidLocation (error : String)
  | proceeds (loc : UserLocation)

/-- The location-handling prefix of `RoutingController.calculateRoute`:
`validationResult` first, then the truthiness check on `lat`/`lng` (a
numeric field equal to 0 is falsy). -/
def calculateRouteLocationCheck (userLocation : Option UserLocation) :
    RouteRequestOutcome :=
  let errors := validateCalculateRoute userLocation
  if errors ≠ [] then .badRequest errors
  else
    match userLocation with
    | none => .invalidLocation "Valid user location (lat, lng) is required"
    | some l =>
        if l.lat = 0 ∨ l.lng = 0 then
          .invalidLocation "Valid user location (lat, lng) is required"
        else .proceeds l

/-- C6: a request whose userLocation has latitude exactly 0 or longitude
exactly 0, both coordinates inside the documented valid ranges, passes
validation but is rejected by the truthiness check as an invalid
location, so the controller never reaches graph construction or
pathfinding (`proceeds`). -/
theorem zero_coordinate_rejected (l : UserLocation)
    (hlat1 : -90 ≤ l.lat) (hlat2 : l.lat ≤ 90)
    (hlng1 : -180 ≤ l.lng) (hlng2 : l.lng ≤ 180)
    (hzero : l.lat = 0 ∨ l.lng = 0) :
    calculateRouteLocationCheck (some l) =
      .invalidLocation "Valid user location (lat, lng) is required" := by
  have h1 : ¬ (l.lat < -90 ∨ 90 < l.lat) := by
    push_neg
    constructor <;> linarith
  have h2 : ¬ (l.lng < -180 ∨ 180 < l.lng) := by
    push_neg
    constructor <;> linarith
  unfold calculateRouteLocationCheck validateCalculateRoute
  simp only [if_neg h1, if_neg h2, List.append_nil]
  simp [hzero]

/-- Witness for C6 at the concrete in-range location (lat 0, lng 50):
rejected as an invalid location. -/
theorem zero_coordinate_rejected_witness :
    calculateRouteLocationCheck (some ⟨0, 50⟩) =
      .invalidLocation "Valid user location (lat, lng) is required" :=
  zero_coordinate_rejected ⟨0, 50⟩ (by norm_num) (by norm_num) (by norm_num)
    (by norm_num) (Or.inl rfl)

theorem generateInstructions_getElem_intermediate (route : Route) (i : ℕ)
    (h1 : 1 ≤ i) (h2 : i + 1 < route.nodes.length) :
    (generateInstructions route)[i]? =
      some (intermediateInstruction route.nodes route.connections i) := by
  unfold generateInstructions
  rw [if_neg (by omega)]
  dsimp only
  obtain ⟨j, rfl⟩ : ∃ j, i = j + 1 := ⟨i - 1, by omega⟩
  rw [List.getElem?_cons_succ, List.getElem?_append, if_pos (by
    rw [List.length_map, List.length_range']
    omega), List.getElem?_map, List.getElem?_range' 1 1 (by omega)]
  rw [show 1 + 1 * j = j + 1 from by omega]
  rfl

theorem atan2_pos_zero {y : ℝ} (hy : 0 < y) : atan2 y 0 = Real.pi / 2 := by
  unfold atan2
  rw [if_neg (lt_irrefl 0), if_neg (by rintro ⟨h, _⟩; exact lt_irrefl 0 h),
    if_neg (lt_irrefl 0), if_pos hy]

/-- Due east along the equator the bearing formula yields exactly 90°. -/
theorem calculateBearing_equator {lng1 lng2 : ℝ} (hgt : 0 < lng2 - lng1)
    (hlt : lng2 - lng1 < 180) : calculateBearing 0 lng1 0 lng2 = 90 := by
  have hrad_pos : 0 < toRadians (lng2 - lng1) := by
    unfold toRadians
    exact div_pos (mul_pos hgt Real.pi_pos) (by norm_num)
  have hrad_lt : toRadians (lng2 - lng1) < Real.pi := by
    unfold toRadians
    rw [div_lt_iff (by norm_num : (0 : ℝ) < 180)]
    nlinarith [Real.pi_pos]
  have hy : 0 < Real.sin (toRadians (lng2 - lng1)) :=
    Real.sin_pos_of_pos_of_lt_pi hrad_pos hrad_lt
  unfold calculateBearing
  dsimp only
  rw [show toRadians 0 = 0 from by unfold toRadians; ring]
  rw [Real.sin_zero, Real.cos_zero]
  rw [show Real.sin (toRadians (lng2 - lng1)) * 1 =
    Real.sin (toRadians (lng2 - lng1)) from by ring]
  rw [show (1 : ℝ) * 0 - 0 * 1 * Real.cos (toRadians (lng2 - lng1)) = 0 from by ring]
  rw [atan2_pos_zero hy]
  unfold toDegrees
  field_simp
  ring

/-- C7: for every intermediate node of a generated route, the action of
its instruction is "straight" when `|turnAngle| < 30`, "turn_right" when
`turnAngle` lies in the open positive 30–150 band, "turn_left" when it
lies in the -150 to -30 band, and "u_turn" when `|turnAngle| ≥ 150`,
where `turnAngle = normalizeAngle(bearing_out - bearing_in)`. -/
theorem turn_classification (route : Route) (i : ℕ)
    (h1 : 1 ≤ i) (h2 : i + 1 < route.nodes.length) :
    (|turnAngleAt route.nodes i| < 30 →
      ((generateInstructions route)[i]?).map Instruction.action = some "straight") ∧
    (30 < turnAngleAt route.nodes i ∧ turnAngleAt route.nodes i < 150 →
      ((generateInstructions route)[i]?).map Instruction.action = some "turn_right") ∧
    (-150 < turnAngleAt route.nodes i ∧ turnAngleAt route.nodes i < -30 →
      ((generateInstructions route)[i]?).map Instruction.action = some "turn_left") ∧
    (150 ≤ |turnAngleAt route.nodes i| →
      ((generateInstructions route)[i]?).map Instruction.action = some "u_turn") := by
  rw [generateInstructions_getElem_intermediate route i h1 h2]
  simp only [Option.map_some']
  have haction : (intermediateInstruction route.nodes route.connections i).action =
      (if 30 < turnAngleAt route.nodes i ∧ turnAngleAt route.nodes i < 150
        then "turn_right"
       else if turnAngleAt route.nodes i < -30 ∧ -150 < turnAngleAt route.nodes i
        then "turn_left"
       else if 150 ≤ |turnAngleAt route.nodes i| then "u_turn"
       else "straight") := rfl
  refine ⟨?_, ?_, ?_, ?_⟩ <;> intro h
  · rw [abs_lt] at h
    rw [haction, if_neg (by rintro ⟨a, b⟩; linarith),
      if_neg (by rintro ⟨a, b⟩; linarith),
      if_neg (by rw [not_le, abs_lt]; constructor <;> linarith)]
  · rw [haction, if_pos h]
  · rw [haction, if_neg (by rintro ⟨a, b⟩; linarith), if_pos ⟨h.2, h.1⟩]
  · rcases le_abs.mp h with hbig | hbig
    · rw [haction, if_neg (by rintro ⟨a, b⟩; linarith),
        if_neg (by rintro ⟨a, b⟩; linarith), if_pos h]
    · rw [haction, if_neg (by rintro ⟨a, b⟩; linarith),
        if_neg (by rintro ⟨a, b⟩; linarith), if_pos h]

/-- Three collinear waypoints heading due east along the equator. -/
noncomputable def nodeEqA : GraphNode := ⟨"a", 0, 0, []⟩

/-- Second equator waypoint. -/
noncomputable def nodeEqB : GraphNode := ⟨"b", 0, 1 / 200, []⟩

/-- Third equator waypoint. -/
noncomputable def nodeEqC : GraphNode := ⟨"c", 0, 1 / 100, []⟩

theorem turnAngle_equator : turnAngleAt [nodeEqA, nodeEqB, nodeEqC] 1 = 0 := by
  unfold turnAngleAt
  simp [List.getD, nodeEqA, nodeEqB, nodeEqC]
  rw [calculateBearing_equator (by norm_num) (by norm_num),
    calculateBearing_equator (by norm_num) (by norm_num), sub_self,
    normalizeAngle_zero]

/-- Witness for C7: on a straight eastbound equatorial route the
intermediate instruction is classified "straight" (turn angle 0). -/
theorem turn_classification_witness :
    |turnAngleAt [nodeEqA, nodeEqB, nodeEqC] 1| < 30 ∧
    ((generateInstructions ⟨[nodeEqA, nodeEqB, nodeEqC], []⟩)[1]?).map
      Instruction.action = some "straight" := by
  constructor
  · rw [turnAngle_equator]; norm_num
  · exact (turn_classification ⟨[nodeEqA, nodeEqB, nodeEqC], []⟩ 1 (by norm_num)
      (by norm_num)).1 (by rw [turnAngle_equator]; norm_num)

/-- The preference defaults destructured in `calculateOptimalRoute`
(`prioritizeSafety = true`, `avoidTraffic = true`,
`emergencyType = 'general'`). -/
def defaultPrefs : RoutePreferences := ⟨true, true, "general"⟩

/-- C5: whenever the A* open set empties without expanding the goal (the
`noPath` outcome), `calculateOptimalRoute` returns the structured failure
`{success: false, error: "No valid route found"}` — never a crash and
never a success-shaped result. -/
theorem noPath_structured_failure (graph : List GraphNode)
    (startNode endNode : GraphNode) (options : RoutePreferences) (fuel : ℕ)
    (h : aStarPathfinding graph startNode endNode options fuel = .noPath) :
    computeRouteFromGraph graph startNode endNode options fuel =
      some (.failure "No valid route found") := by
  unfold computeRouteFromGraph
  rw [h]

/-- An isolated node used by the disconnected-graph run. -/
noncomputable def nodeIsoA : GraphNode := ⟨"a", 0, 0, []⟩

/-- A second isolated node (no connections in either direction). -/
noncomputable def nodeIsoB : GraphNode := ⟨"b", 1 / 10, 1 / 10, []⟩

theorem aStar_disconnected_noPath :
    aStarPathfinding [nodeIsoA, nodeIsoB] nodeIsoA nodeIsoB defaultPrefs 2 =
      .noPath := by
  unfold aStarPathfinding
  rw [aStarLoop]
  simp only [nodeIsoA, nodeIsoB]
  rw [if_neg (by simp)]
  simp only [List.foldl_nil]
  rw [aStarLoop]

/-- Witness for C5: a two-node graph with no edges; A* from one node to
the other empties its open set and the route computation reports the
structured failure. -/
theorem noPath_structured_failure_witness :
    aStarPathfinding [nodeIsoA, nodeIsoB] nodeIsoA nodeIsoB defaultPrefs 2 =
      .noPath ∧
    computeRouteFromGraph [nodeIsoA, nodeIsoB] nodeIsoA nodeIsoB defaultPrefs 2 =
      some (.failure "No valid route found") :=
  ⟨aStar_disconnected_noPath,
   noPath_structured_failure _ _ _ _ _ aStar_disconnected_noPath⟩

theorem aStar_same_node (graph : List GraphNode) (n : GraphNode)
    (options : RoutePreferences) (fuel : ℕ) :
    aStarPathfinding graph n n options (fuel + 1) = .found ⟨[n], []⟩ := by
  unfold aStarPathfinding
  rw [aStarLoop]
  simp [reconstructPath, reconstructPathAux, mget]

theorem routeOnGraph_same_node (graph : List GraphNode) (n : GraphNode)
    (slat slng elat elng : ℝ) (options : RoutePreferences) (fuel : ℕ)
    (hs : findNearestNode graph slat slng = some n)
    (he : findNearestNode graph elat elng = some n) :
    calculateOptimalRouteOnGraph graph slat slng elat elng options (fuel + 1) =
      some (.success ⟨[(n.lng, n.lat)]⟩ [] (calculateRouteMetadata ⟨[n], []⟩)) := by
  unfold calculateOptimalRouteOnGraph
  rw [hs, he]
  dsimp only
  unfold computeRouteFromGraph
  rw [aStar_same_node]
  unfold convertToGeoJSON generateInstructions
  simp

theorem metadata_no_connections (nodes : List GraphNode) :
    (calculateRouteMetadata ⟨nodes, []⟩).totalDistanceKm = 0 ∧
    (calculateRouteMetadata ⟨nodes, []⟩).estimatedTimeMin = 0 := by
  have hfl : ⌊(1 / 2 : ℝ)⌋ = 0 := by
    rw [Int.floor_eq_iff] <;> norm_num
  unfold calculateRouteMetadata jsRound
  norm_num [hfl]

/-- C1 (amended): when start and end map to the same nearest graph node,
the route computation succeeds with a single-node path, total distance 0
and estimated time 0, but the instruction list is EMPTY — the source
returns early for paths of fewer than two nodes, so no "arrive"
instruction is emitted. -/
theorem sameNearestNode_trivial_route (graph : List GraphNode) (n : GraphNode)
    (slat slng elat elng : ℝ) (options : RoutePreferences) (fuel : ℕ)
    (hs : findNearestNode graph slat slng = some n)
    (he : findNearestNode graph elat elng = some n) :
    calculateOptimalRouteOnGraph graph slat slng elat elng options (fuel + 1) =
      some (.success ⟨[(n.lng, n.lat)]⟩ [] (calculateRouteMetadata ⟨[n], []⟩)) ∧
    (calculateRouteMetadata ⟨[n], []⟩).totalDistanceKm = 0 ∧
    (calculateRouteMetadata ⟨[n], []⟩).estimatedTimeMin = 0 :=
  ⟨routeOnGraph_same_node graph n slat slng elat elng options fuel hs he,
   metadata_no_connections [n]⟩

/-- The grid graph over the collapsed bounding box [0,0]×[0,0]: a single
node with no connections. -/
noncomputable def degenerateGraph : List GraphNode :=
  generateGridGraph ⟨0, 0, 0, 0⟩ (5 / 1000) (fun _ _ => 0)

theorem degenerateGraph_eq : degenerateGraph = [⟨"node_0", 0, 0, []⟩] := by
  have hgp : gridPoints 0 0 (5 / 1000) = [0] := by
    unfold gridPoints
    rw [show ((0 : ℝ) - 0) / (5 / 1000) = 0 from by norm_num, Int.floor_zero,
      show Int.toNat (0 + 1) = 1 from rfl, show List.range 1 = [0] from rfl]
    norm_num
  have hbare : numberNodes 0
      ([(0 : ℝ)].bind fun lat => ([0] : List ℝ).map fun lng => (lat, lng)) =
      [⟨"node_0", 0, 0, []⟩] := by
    rw [show ([(0 : ℝ)].bind fun lat => ([0] : List ℝ).map fun lng => (lat, lng)) =
      [((0 : ℝ), (0 : ℝ))] from by simp]
    rfl
  have hnb : findNeighbors ⟨"node_0", 0, 0, []⟩ [⟨"node_0", 0, 0, []⟩]
      (5 / 1000) = [] := by
    rw [findNeighbors, if_neg (by simp), findNeighbors]
  unfold degenerateGraph generateGridGraph
  rw [hgp]
  try dsimp only
  rw [hbare]
  simp only [List.map_cons, List.map_nil]
  try dsimp only
  rw [hnb]
  simp

theorem degenerate_findNearest :
    findNearestNode degenerateGraph 0 0 = some ⟨"node_0", 0, 0, []⟩ := by
  rw [degenerateGraph_eq]
  unfold findNearestNode
  simp

/-- The property asserted by the claim for the same-nearest-node case: a
successful result with a one-point path, zero distance and time, and an
instruction list whose only entry is the "arrive" instruction. -/
def trivialRouteClaim (result : Option RouteResult) : Prop :=
  match result with
  | some (.success geo instrs meta) =>
      geo.coordinates.length = 1 ∧ meta.totalDistanceKm = 0 ∧
      meta.estimatedTimeMin = 0 ∧ instrs.length = 1 ∧
      (instrs.getD 0 default).action = "arrive"
  | _ => False

/-- C1 counterexample: on the one-node graph, with start = end = (0,0),
the route result is a success with a single-node path and zero metadata,
but its instruction list is empty rather than the claimed single "arrive"
entry. -/
theorem trivial_route_claim_false :
    ¬ trivialRouteClaim
      (calculateOptimalRouteOnGraph degenerateGraph 0 0 0 0 defaultPrefs 1) := by
  have heval := routeOnGraph_same_node degenerateGraph ⟨"node_0", 0, 0, []⟩
    0 0 0 0 defaultPrefs 0 degenerate_findNearest degenerate_findNearest
  rw [heval]
  unfold trivialRouteClaim
  rintro ⟨-, -, -, hlen, -⟩
  simp at hlen

/-- Witness for C1 (amended) on the builder-produced one-node graph. -/
theorem sameNearestNode_trivial_route_witness :
    calculateOptimalRouteOnGraph degenerateGraph 0 0 0 0 defaultPrefs 1 =
      some (.success ⟨[(0, 0)]⟩ []
        (calculateRouteMetadata ⟨[⟨"node_0", 0, 0, []⟩], []⟩)) ∧
    (calculateRouteMetadata ⟨[⟨"node_0", 0, 0, []⟩], []⟩).totalDistanceKm = 0 ∧
    (calculateRouteMetadata ⟨[⟨"node_0", 0, 0, []⟩], []⟩).estimatedTimeMin = 0 :=
  sameNearestNode_trivial_route degenerateGraph ⟨"node_0", 0, 0, []⟩
    0 0 0 0 defaultPrefs 0 degenerate_findNearest degenerate_findNearest

theorem mem_findNeighbors {node nb : GraphNode} {allNodes : List GraphNode}
    {gridSize : ℝ} (h : nb ∈ findNeighbors node allNodes gridSize) :
    nb.id ≠ node.id ∧
      haversineDistance node.lat node.lng nb.lat nb.lng ≤ gridSize * 1.5 := by
  induction allNodes with
  | nil => rw [findNeighbors] at h; exact absurd h (List.not_mem_nil nb)
  | cons other rest ih =>
      rw [findNeighbors] at h
      split_ifs at h with hcond
      · rcases List.mem_cons.mp h with rfl | hmem
        · exact hcond
        · exact ih hmem
      · exact ih h

/-- C10, the half of the claimed edge invariant that the exact-real
model settles unconditionally: in every graph the grid builder produces,
no edge connects a node to itself, and every edge's distance is
nonnegative.  The strict-positivity half of the claim hinges on
floating-point rounding at the poles (see
`grid_edge_positive_distance_false`) and is therefore not decided by
this embedding. -/
theorem generateGridGraph_edge_invariant (bounds : Bounds) (gridSize : ℝ)
    (traffic : GraphNode → GraphNode → ℝ) (node : GraphNode) (conn : Connection)
    (hn : node ∈ generateGridGraph bounds gridSize traffic)
    (hc : conn ∈ node.connections) :
    conn.target ≠ node.id ∧ 0 ≤ conn.distance := by
  unfold generateGridGraph at hn
  obtain ⟨b, hb, rfl⟩ := List.mem_map.mp hn
  dsimp only at hc
  obtain ⟨nb, hnb, rfl⟩ := List.mem_map.mp hc
  exact ⟨(mem_findNeighbors hnb).1, haversine_nonneg _ _ _ _⟩

/-- The grid graph over a degenerate polar box: one grid row at
latitude 90 with two longitudes 0.005° apart.  In exact reals the
haversine distance between the two distinct nodes is 0, so they become
mutual neighbours with a zero-distance edge; under IEEE doubles the same
construction stores a strictly positive (≈ 3.4e-17 km) distance. -/
noncomputable def poleGraph : List GraphNode :=
  generateGridGraph ⟨90, 90, 0, 5 / 1000⟩ (5 / 1000) (fun _ _ => 0)

theorem poleGraph_eq : poleGraph =
    [⟨"node_0", 90, 0, [⟨"node_1", 0, 0, 1 / 10⟩]⟩,
     ⟨"node_1", 90, 5 / 1000, [⟨"node_0", 0, 0, 1 / 10⟩]⟩] := by
  have hgp_lat : gridPoints 90 90 (5 / 1000) = [90] := by
    unfold gridPoints
    rw [show ((90 : ℝ) - 90) / (5 / 1000) = 0 from by norm_num, Int.floor_zero,
      show Int.toNat (0 + 1) = 1 from rfl, show List.range 1 = [0] from rfl]
    norm_num
  have hgp_lng : gridPoints 0 (5 / 1000) (5 / 1000) = [0, 5 / 1000] := by
    unfold gridPoints
    rw [show ((5 : ℝ) / 1000 - 0) / (5 / 1000) = 1 from by norm_num, Int.floor_one,
      show Int.toNat (1 + 1) = 2 from rfl, show List.range 2 = [0, 1] from rfl]
    norm_num
  have hbare : numberNodes 0
      (([(90 : ℝ)].bind fun lat => ([0, 5 / 1000] : List ℝ).map fun lng => (lat, lng))) =
      [⟨"node_0", 90, 0, []⟩, ⟨"node_1", 90, 5 / 1000, []⟩] := by
    rw [show (([(90 : ℝ)].bind fun lat =>
        ([0, 5 / 1000] : List ℝ).map fun lng => (lat, lng))) =
      [((90 : ℝ), (0 : ℝ)), ((90 : ℝ), 5 / 1000)] from by simp]
    rfl
  have hnb1 : findNeighbors ⟨"node_0", 90, 0, []⟩
      [⟨"node_0", 90, 0, []⟩, ⟨"node_1", 90, 5 / 1000, []⟩] (5 / 1000) =
      [⟨"node_1", 90, 5 / 1000, []⟩] := by
    rw [findNeighbors, if_neg (by simp), findNeighbors, if_pos ?hc1, findNeighbors]
    refine ⟨by simp, ?_⟩
    show haversineDistance 90 0 90 (5 / 1000) ≤ 5 / 1000 * 1.5
    rw [haversine_pole]
    norm_num
  have hnb2 : findNeighbors ⟨"node_1", 90, 5 / 1000, []⟩
      [⟨"node_0", 90, 0, []⟩, ⟨"node_1", 90, 5 / 1000, []⟩] (5 / 1000) =
      [⟨"node_0", 90, 0, []⟩] := by
    rw [findNeighbors, if_pos ?hc2, findNeighbors, if_neg (by simp), findNeighbors]
    refine ⟨by simp, ?_⟩
    show haversineDistance 90 (5 / 1000) 90 0 ≤ 5 / 1000 * 1.5
    rw [haversine_pole]
    norm_num
  unfold poleGraph generateGridGraph
  rw [hgp_lat, hgp_lng]
  try dsimp only
  rw [hbare]
  simp only [List.map_cons, List.map_nil]
  try dsimp only
  rw [hnb1, hnb2]
  simp only [List.map_cons, List.map_nil]
  try dsimp only
  rw [haversine_pole, haversine_pole]

/-- Strict positivity of edge distances between distinct nodes — the
second half of the claimed edge invariant. -/
def distinctEdgesPositive (graph : List GraphNode) : Prop :=
  ∀ node ∈ graph, ∀ conn ∈ node.connections,
    conn.target ≠ node.id → 0 < conn.distance

/-- In the exact-real model, strict positivity fails on the polar
degenerate grid: the edge between the distinct nodes `node_0` and
`node_1` has distance exactly 0.  The JavaScript source evaluates the
same formula with IEEE doubles, where `cos(toRadians(90)) ≈ 6.12e-17`
makes this distance strictly positive — the verdict on strict positivity
flips with the numeric model, which is why C10 is settled here only up to
nonnegativity. -/
theorem grid_edge_positive_distance_false :
    ¬ distinctEdgesPositive poleGraph := by
  intro h
  have h0 := h ⟨"node_0", 90, 0, [⟨"node_1", 0, 0, 1 / 10⟩]⟩
    (by rw [poleGraph_eq]; simp) ⟨"node_1", 0, 0, 1 / 10⟩ (by simp) (by simp)
  exact lt_irrefl 0 h0

/-- Instance of the settled invariant half on the polar graph's
degenerate edge: its target differs from its origin and its distance is
nonnegative. -/
theorem generateGridGraph_edge_invariant_witness :
    Connection.target ⟨"node_1", 0, 0, 1 / 10⟩ ≠
      GraphNode.id ⟨"node_0", 90, 0, [⟨"node_1", 0, 0, 1 / 10⟩]⟩ ∧
    (0 : ℝ) ≤ Connection.distance ⟨"node_1", 0, 0, 1 / 10⟩ :=
  generateGridGraph_edge_invariant ⟨90, 90, 0, 5 / 1000⟩ (5 / 1000)
    (fun _ _ => 0) ⟨"node_0", 90, 0, [⟨"node_1", 0, 0, 1 / 10⟩]⟩
    ⟨"node_1", 0, 0, 1 / 10⟩
    (by rw [show generateGridGraph ⟨90, 90, 0, 5 / 1000⟩ (5 / 1000)
        (fun _ _ => 0) = poleGraph from rfl, poleGraph_eq]; simp)
    (by simp)
